import Mathlib

/-!
Shallow embedding of the FitAI telegram bot core (src/chatbot/bot.py and
src/chatbot/assistant.py): the intake state machine with per-field
validation, session reconciliation against the sessions store, and the
message-exchange path against the remote assistant backend.

Conventions of the embedding:
* The Python handlers are `async def`s mutating `context.user_data`; here
  each is a pure function from its inputs (the parse outcome of the user
  text, the current `UserData`, the store and backend state) to the next
  conversation state, the updated `UserData`, and the list of messages
  sent to the user.
* Python `int(text)` / `float(text)` parsing belongs to the runtime, not
  to this repository; handlers are embedded over the parse outcome
  (`none` models a raised `ValueError`).  A successfully parsed float is
  a `PyFloat`: an IEEE special (`nan`, `inf`, `ninf`) or a finite value,
  with Python comparison semantics (every comparison with `nan` is
  false).
* Collaborator calls that can raise (supabase, OpenAI, telegram sends)
  are embedded as `Except String` outcomes supplied to the function;
  an exception that the source does not catch is a returned
  `Except.error`.
-/

/-- One thread message as the code consumes it: `msg.role` and
`msg.content[0].text.value` (content modelled as the single text block the
backend produces). -/
structure Msg where
  role : String
  text : String
deriving DecidableEq, Repr

/-- bot.py line 178/201 fallback string. -/
def noResponseMsg : String := "No response from assistant."

/-- bot.py lines 178 and 201:
`next((msg.content[0].text.value for msg in messages if msg.role == 'assistant'), "No response from assistant.")`
over the list returned by `list_messages`, which the backend orders newest
first. -/
def extract_response (msgs : List Msg) : String :=
  match msgs.find? (fun m => m.role == "assistant") with
  | some m => m.text
  | none => noResponseMsg

/-- Result of a successful Python `float(text)`: an IEEE special value or a
finite value (modelled as the rational the comparisons see). -/
inductive PyFloat where
  | nan : PyFloat
  | inf : PyFloat
  | ninf : PyFloat
  | fin : ℚ → PyFloat
deriving DecidableEq, Repr

/-- Python `x <= c` for a float `x` and a finite literal `c`
(0, 500, 300 in the source); every comparison with `nan` is false. -/
def PyFloat.leQ : PyFloat → ℚ → Bool
  | .nan, _ => false
  | .inf, _ => false
  | .ninf, _ => true
  | .fin x, c => decide (x ≤ c)

/-- Python `x > c` for a float `x` and a finite literal `c`;
every comparison with `nan` is false. -/
def PyFloat.gtQ : PyFloat → ℚ → Bool
  | .nan, _ => false
  | .inf, _ => true
  | .ninf, _ => false
  | .fin x, c => decide (c < x)

/-- bot.py line 31: `SHARE_CONTACT, GET_AGE, GET_WEIGHT, GET_HEIGHT, ONGOING = range(5)`,
plus `ConversationHandler.END` (the spec's CANCELLED/ended state). -/
inductive ConvState where
  | SHARE_CONTACT : ConvState
  | GET_AGE : ConvState
  | GET_WEIGHT : ConvState
  | GET_HEIGHT : ConvState
  | ONGOING : ConvState
  | END : ConvState
deriving DecidableEq, Repr

/-- `context.user_data`: the per-user draft profile and session handles.
Keys absent from the dict are `none`. -/
structure UserData where
  telegram_id : Option Nat := none
  phone : Option String := none
  name : Option String := none
  age : Option Int := none
  weight : Option PyFloat := none
  height : Option PyFloat := none
  id : Option Nat := none
  thread_id : Option Nat := none
  session_id : Option Nat := none
deriving DecidableEq, Repr

/-- A row of the supabase `users` table. -/
structure UserRow where
  id : Nat
  telegram_id : Nat
  name : String
  phone : String
  age : Int
  weight : PyFloat
  height : PyFloat
deriving DecidableEq, Repr

/-- bot.py line 78 error prompt. -/
def agePromptErr : String := "Please enter a valid age between 1 and 120."

/-- bot.py line 74 next prompt. -/
def weightPrompt : String := "Great! Now, what\x27s your current weight in kg?"

/-- bot.py line 92 error prompt. -/
def weightPromptErr : String := "Please enter a valid weight in kg (e.g., 70.5)."

/-- bot.py line 88 next prompt. -/
def heightPrompt : String := "Excellent! Lastly, what\x27s your height in cm?"

/-- bot.py line 105 error prompt. -/
def heightPromptErr : String := "Please enter a valid height in cm (e.g., 175.5)."

/-- bot.py line 171 handoff acknowledgement. -/
def thanksMsg : String :=
  "Thanks for providing your information. I\x27ve forwarded it to one of our PTs, they will be with you shortly!"

/-- bot.py line 186 generic failure reply of `finalize_profile`. -/
def genericFailure : String :=
  "I\x27m sorry, but there was an error processing your information. Please try again later or contact support."

/-- bot.py line 64 new-user prompt. -/
def askAgeMsg : String := "Thanks for sharing your contact. Now, please tell me your age."

/-- bot.py lines 67-79, `get_age`: `age = int(update.message.text)`;
reject (same state, error prompt, nothing stored) when parsing raises or
`age <= 0 or age > 120`; otherwise store the age and advance. -/
def get_age (parsed : Option Int) (ud : UserData) : ConvState × UserData × List String :=
  match parsed with
  | none => (ConvState.GET_AGE, ud, [agePromptErr])
  | some age =>
    if age ≤ 0 ∨ age > 120 then
      (ConvState.GET_AGE, ud, [agePromptErr])
    else
      (ConvState.GET_WEIGHT, { ud with age := some age }, [weightPrompt])

/-- bot.py lines 81-93, `get_weight`: `weight = float(update.message.text)`;
reject when parsing raises or `weight <= 0 or weight > 500` (Python float
comparisons, so both tests are false for `nan`); otherwise store and
advance. -/
def get_weight (parsed : Option PyFloat) (ud : UserData) : ConvState × UserData × List String :=
  match parsed with
  | none => (ConvState.GET_WEIGHT, ud, [weightPromptErr])
  | some w =>
    if w.leQ 0 || w.gtQ 500 then
      (ConvState.GET_WEIGHT, ud, [weightPromptErr])
    else
      (ConvState.GET_HEIGHT, { ud with weight := some w }, [heightPrompt])

/-- Outcomes of the collaborator calls inside `finalize_profile`'s try
block (bot.py lines 154-182), in source order: the profile upsert (ok
value: the returned internal user row id), the `get_or_create_session`
step (ok value: the thread id it leaves in the context), the
acknowledgement send, the profile-summary message post, the run start,
the run wait (ok value: the final run status; an error models a poll call
raising), the message listing (newest first), and the final reply send. -/
structure FinalizeEnv where
  upsert : Except String Nat
  goc : Except String Nat
  thanksSend : Except String Unit
  post : Except String Unit
  startRun : Except String Nat
  wait : Except String String
  listMsgs : Except String (List Msg)
  send : Except String Unit
deriving Repr

/-- `true` iff every collaborator call in the finalize try block succeeds. -/
def isOkE {α : Type} : Except String α → Bool
  | .ok _ => true
  | .error _ => false

/-- All steps of the finalize try block succeed. -/
def FinalizeEnv.allOk (env : FinalizeEnv) : Bool :=
  isOkE env.upsert && isOkE env.goc && isOkE env.thanksSend && isOkE env.post &&
    isOkE env.startRun && isOkE env.wait && isOkE env.listMsgs && isOkE env.send

/-- bot.py lines 153-187, `finalize_profile`: inside one try block, upsert
the profile, record the returned row id in the context, reconcile the
session (recording the thread id), send the acknowledgement, post the
profile summary, start a run, wait on it, list the messages, extract the
assistant reply and send it, returning ONGOING; any exception at any step
falls to the except branch, which sends the fixed generic failure string
and returns `ConversationHandler.END`. -/
def finalize_profile (env : FinalizeEnv) (ud : UserData) : ConvState × UserData × List String :=
  match env.upsert with
  | .error _ => (ConvState.END, ud, [genericFailure])
  | .ok uid =>
    let ud1 := { ud with id := some uid }
    match env.goc with
    | .error _ => (ConvState.END, ud1, [genericFailure])
    | .ok tid =>
      let ud2 := { ud1 with thread_id := some tid }
      match env.thanksSend with
      | .error _ => (ConvState.END, ud2, [genericFailure])
      | .ok _ =>
        match env.post with
        | .error _ => (ConvState.END, ud2, [thanksMsg, genericFailure])
        | .ok _ =>
          match env.startRun with
          | .error _ => (ConvState.END, ud2, [thanksMsg, genericFailure])
          | .ok _ =>
            match env.wait with
            | .error _ => (ConvState.END, ud2, [thanksMsg, genericFailure])
            | .ok _ =>
              match env.listMsgs with
              | .error _ => (ConvState.END, ud2, [thanksMsg, genericFailure])
              | .ok msgs =>
                match env.send with
                | .error _ => (ConvState.END, ud2, [thanksMsg, genericFailure])
                | .ok _ => (ConvState.ONGOING, ud2, [thanksMsg, extract_response msgs])

/-- bot.py lines 95-106, `get_height`: `height = float(update.message.text)`;
reject when parsing raises or `height <= 0 or height > 300`; otherwise
store the height and hand off to `finalize_profile`. -/
def get_height (parsed : Option PyFloat) (ud : UserData) (env : FinalizeEnv) :
    ConvState × UserData × List String :=
  match parsed with
  | none => (ConvState.GET_HEIGHT, ud, [heightPromptErr])
  | some h =>
    if h.leQ 0 || h.gtQ 300 then
      (ConvState.GET_HEIGHT, ud, [heightPromptErr])
    else
      finalize_profile env { ud with height := some h }

/-- A row of the supabase `assistant_sessions` table:
`{id, user_id, thread_id, state}`, `id` the serial primary key. -/
structure SessionRow where
  id : Nat
  user_id : Nat
  thread_id : Nat
  state : String
deriving DecidableEq, Repr

/-- The `assistant_sessions` table together with the serial key counter
the database would use for the next insert. -/
structure Store where
  sessions : List SessionRow
  nextSessionId : Nat
deriving DecidableEq, Repr

/-- The remote assistant backend as `get_or_create_session` touches it:
only thread creation, which hands out fresh thread ids. -/
structure Assistant where
  nextThreadId : Nat
deriving DecidableEq, Repr

/-- assistant.py lines 14-15: `client.beta.threads.create()`, handing out a
fresh thread id. -/
def create_thread (a : Assistant) : Assistant × Nat :=
  ({ nextThreadId := a.nextThreadId + 1 }, a.nextThreadId)

/-- `ORDER BY id DESC LIMIT 1` folded over a list of rows: keep the row
with the greatest id (the first such row on equal ids). -/
def pickLatest (acc : Option SessionRow) : List SessionRow → Option SessionRow
  | [] => acc
  | r :: rs =>
    pickLatest
      (match acc with
       | none => some r
       | some b => if b.id < r.id then some r else some b) rs

/-- bot.py line 112: select the most recent `assistant_sessions` row for
the user (`eq user_id`, `order id desc`, `limit 1`). -/
def selectLatestSession (store : Store) (uid : Nat) : Option SessionRow :=
  pickLatest none (store.sessions.filter (fun r => r.user_id == uid))

/-- bot.py line 123: `UPDATE assistant_sessions SET state = st WHERE id = sid`. -/
def updateSessionState (store : Store) (sid : Nat) (st : String) : Store :=
  { store with
    sessions := store.sessions.map (fun r => if r.id = sid then { r with state := st } else r) }

/-- Result of `get_or_create_session`: the updated table, the backend
state, and the thread and session ids left in `context.user_data`. -/
structure GocResult where
  store : Store
  assistant : Assistant
  thread_id : Nat
  session_id : Nat
deriving DecidableEq, Repr

/-- bot.py lines 108-151, `get_or_create_session`: select the most recent
session row for the user; if found, take its thread and session ids and
promote its state to ONGOING when it differs; otherwise create a remote
thread and insert a new row `{user_id, thread_id, state: ONGOING}`.  The
closing try/except (lines 140-151) guards only a `logger.info` call, which
cannot raise, so its thread-replacement branch is unreachable and does not
appear in the embedding. -/
def get_or_create_session (store : Store) (a : Assistant) (uid : Nat) : GocResult :=
  match selectLatestSession store uid with
  | some s =>
    if s.state ≠ "ONGOING" then
      { store := updateSessionState store s.id "ONGOING", assistant := a,
        thread_id := s.thread_id, session_id := s.id }
    else
      { store := store, assistant := a, thread_id := s.thread_id, session_id := s.id }
  | none =>
    let p := create_thread a
    let row : SessionRow :=
      { id := store.nextSessionId, user_id := uid, thread_id := p.2, state := "ONGOING" }
    { store := { sessions := store.sessions ++ [row], nextSessionId := store.nextSessionId + 1 },
      assistant := p.1, thread_id := p.2, session_id := row.id }

/-- bot.py line 60 returning-user greeting, built from
`context.user_data['name']`. -/
def welcomeBack (name : String) : String :=
  "Welcome back, " ++ name ++ "! How can I assist you today?"

/-- bot.py line 57: `context.user_data.update(user)` — every column of the
found `users` row overwrites the corresponding context key. -/
def applyUserRow (ud : UserData) (u : UserRow) : UserData :=
  { ud with
    id := some u.id, telegram_id := some u.telegram_id, name := some u.name,
    phone := some u.phone, age := some u.age, weight := some u.weight,
    height := some u.height }

/-- bot.py lines 44-65, `handle_contact`: record the contact fields in the
context (`name` is first and last name joined and stripped); select the
`users` row by telegram id; if found, load the row into the context,
reconcile the session, greet the returning user and go to ONGOING;
otherwise ask for the age and go to GET_AGE.  Returns the next state, the
context, the (untouched) users table, the session store and backend after
any reconciliation, and the messages sent. -/
def handle_contact (tgid : Nat) (phone firstName lastName : String)
    (users : List UserRow) (store : Store) (a : Assistant) (ud : UserData) :
    ConvState × UserData × List UserRow × Store × Assistant × List String :=
  let name := (firstName ++ " " ++ lastName).trim
  let ud1 := { ud with telegram_id := some tgid, phone := some phone, name := some name }
  match users.find? (fun u => u.telegram_id == tgid) with
  | some u =>
    let ud2 := applyUserRow ud1 u
    let g := get_or_create_session store a u.id
    let ud3 := { ud2 with thread_id := some g.thread_id, session_id := some g.session_id }
    (ConvState.ONGOING, ud3, users, g.store, g.assistant, [welcomeBack u.name])
  | none =>
    (ConvState.GET_AGE, ud1, users, store, a, [askAgeMsg])

/-- assistant.py line 31 loop guard: the run is still busy while its
status is `queued` or `in_progress`. -/
def busy (s : String) : Bool :=
  s == "queued" || s == "in_progress"

/-- assistant.py lines 30-37, `wait_on_run`: while the status is busy,
retrieve the run again; return the first non-busy run.  `t n` is the
status the n-th retrieval observes (`t k` the status currently at hand),
and the polling loop is embedded with explicit fuel: `none` means the
loop is still running after `fuel` checks — the source has no timeout, so
only the status trace can stop it. -/
def wait_on_run (fuel : Nat) (t : Nat → String) (k : Nat) : Option String :=
  match fuel with
  | 0 => none
  | fuel + 1 => if busy (t k) then wait_on_run fuel t (k + 1) else some (t k)

/-- The message the backend raises from `runs.create` on a thread whose
previous run has not finished. -/
def activeRunErr : String := "Thread already has an active run"

/-- A remote thread as the exchange path sees it: its messages (newest
first, the order `list_messages` returns) and whether a run is active on
it (the condition making `runs.create` raise). -/
structure RThread where
  msgs : List Msg
  runActive : Bool
deriving DecidableEq, Repr

/-- What one `handle_message` turn did: the outcome (`none` while the
polling loop is still running, `some (Except.error e)` when an exception
propagates out of the handler — it has no try/except — and
`some (Except.ok r)` when the reply `r` was delivered and ONGOING
returned), the thread messages afterwards, and how many runs were started
and user messages posted. -/
structure ExchangeOutcome where
  result : Option (Except String String)
  finalMsgs : List Msg
  runsStarted : Nat
  userMsgsPosted : Nat
deriving Repr

/-- bot.py lines 189-205, `handle_message`: post the user text as a user
message, start a run, wait on it, list the messages and reply with the
extracted response, returning ONGOING.  `th` is the remote thread the
stored thread id resolves to (`none`: the id is unusable, so the first
backend call raises); `trace` is the run-status trace the wait observes
and `runOutput` the messages the run prepends.  There is no exception
handling anywhere in the handler, so every backend error is returned as a
propagating exception. -/
def handle_message (fuel : Nat) (th : Option RThread) (userText : String)
    (trace : Nat → String) (runOutput : List Msg) : ExchangeOutcome :=
  match th with
  | none =>
    { result := some (Except.error "No thread found"), finalMsgs := [],
      runsStarted := 0, userMsgsPosted := 0 }
  | some t =>
    let msgs1 := { role := "user", text := userText } :: t.msgs
    if t.runActive then
      { result := some (Except.error activeRunErr), finalMsgs := msgs1,
        runsStarted := 0, userMsgsPosted := 1 }
    else
      match wait_on_run fuel trace 0 with
      | none =>
        { result := none, finalMsgs := msgs1, runsStarted := 1, userMsgsPosted := 1 }
      | some _ =>
        let msgs2 := runOutput ++ msgs1
        { result := some (Except.ok (extract_response msgs2)), finalMsgs := msgs2,
          runsStarted := 1, userMsgsPosted := 1 }

/-- The text of the most recent assistant-authored message of a thread,
given the thread's messages in chronological order (oldest first); `none`
when no assistant-authored message exists.  This is the spec/claim-side
description of the reply selection. -/
def mostRecentAssistantText (chron : List Msg) : Option String :=
  ((chron.filter (fun m => m.role == "assistant")).getLast?).map Msg.text

/-- The four-turn happy path of the intake machine: the states returned by
the contact, age, weight and height handlers in sequence, each handler fed
the context produced by the previous one (the dispatch the transport's
ConversationHandler performs), and the final context. -/
def intakeStates (tgid : Nat) (phone fn ln : String) (users : List UserRow)
    (store : Store) (a : Assistant) (ud : UserData)
    (ageP : Option Int) (wP hP : Option PyFloat) (env : FinalizeEnv) :
    ConvState × ConvState × ConvState × ConvState × UserData :=
  let r1 := handle_contact tgid phone fn ln users store a ud
  let r2 := get_age ageP r1.2.1
  let r3 := get_weight wP r2.2.1
  let r4 := get_height hP r3.2.1 env
  (r1.1, r2.1, r3.1, r4.1, r4.2.1)

/-- A finalize environment in which every collaborator call succeeds. -/
def okEnv : FinalizeEnv :=
  { upsert := Except.ok 1, goc := Except.ok 5, thanksSend := Except.ok (),
    post := Except.ok (), startRun := Except.ok 9, wait := Except.ok "completed",
    listMsgs := Except.ok [{ role := "assistant", text := "Welcome aboard" }],
    send := Except.ok () }

/-- A finalize environment whose very first step (the profile upsert)
raises. -/
def failEnv : FinalizeEnv :=
  { upsert := Except.error "db down", goc := Except.ok 5, thanksSend := Except.ok (),
    post := Except.ok (), startRun := Except.ok 9, wait := Except.ok "completed",
    listMsgs := Except.ok [], send := Except.ok () }

theorem reverse_find_eq_getLast_filter {α : Type} (p : α → Bool) (l : List α) :
    l.reverse.find? p = (l.filter p).getLast? := by
  induction l with
  | nil => rfl
  | cons x xs ih =>
    rw [List.reverse_cons, List.find?_append, ih, List.filter_cons]
    by_cases hx : p x
    · rw [if_pos hx]
      have hfx : [x].find? p = some x := by simp [List.find?_cons, hx]
      rw [hfx]
      cases hL : xs.filter p with
      | nil => rfl
      | cons y ys =>
        rw [List.getLast?_cons_cons]
        have hs : ((y :: ys).getLast?).isSome := by simp [List.getLast?_isSome]
        cases ho : (y :: ys).getLast? with
        | none => rw [ho] at hs; simp at hs
        | some z => rfl
    · rw [if_neg hx]
      have hfx : [x].find? p = none := by simp [List.find?_cons, hx]
      rw [hfx, Option.or_none]

theorem pickLatest_append (l₁ l₂ : List SessionRow) (acc : Option SessionRow) :
    pickLatest acc (l₁ ++ l₂) = pickLatest (pickLatest acc l₁) l₂ := by
  induction l₁ generalizing acc with
  | nil => rfl
  | cons r rs ih =>
    rw [List.cons_append]
    show pickLatest _ (rs ++ l₂) = _
    rw [ih]
    rfl

theorem pickLatest_eq_some {l : List SessionRow} {acc : Option SessionRow} {b : SessionRow}
    (h : pickLatest acc l = some b) : b ∈ l ∨ acc = some b := by
  induction l generalizing acc with
  | nil => right; exact h
  | cons r rs ih =>
    rcases ih h with hmem | hacc
    · left; exact List.mem_cons_of_mem _ hmem
    · cases acc with
      | none =>
        left
        cases hacc
        exact List.mem_cons_self _ _
      | some c =>
        replace hacc : (if c.id < r.id then some r else some c) = some b := hacc
        by_cases hlt : c.id < r.id
        · rw [if_pos hlt] at hacc
          left
          cases hacc
          exact List.mem_cons_self _ _
        · rw [if_neg hlt] at hacc
          right; exact hacc

theorem pickLatest_le {l : List SessionRow} {acc : Option SessionRow} {b : SessionRow}
    (h : pickLatest acc l = some b) :
    (∀ r ∈ l, r.id ≤ b.id) ∧ (∀ c, acc = some c → c.id ≤ b.id) := by
  induction l generalizing acc with
  | nil =>
    have hb : acc = some b := h
    refine ⟨fun r hr => absurd hr (List.not_mem_nil r), fun c hc => ?_⟩
    rw [hb] at hc
    cases hc
    exact le_refl _
  | cons r rs ih =>
    obtain ⟨hrs, hacc⟩ := ih h
    constructor
    · intro r' hr'
      rcases List.mem_cons.mp hr' with hr' | hr'
      · subst hr'
        cases acc with
        | none => exact hacc _ rfl
        | some c =>
          have hacc' : ∀ d, (if c.id < r'.id then some r' else some c) = some d → d.id ≤ b.id :=
            fun d hd => hacc d hd
          by_cases hlt : c.id < r'.id
          · exact hacc' _ (if_pos hlt)
          · exact le_trans (le_of_not_lt hlt) (hacc' _ (if_neg hlt))
      · exact hrs _ hr'
    · intro c hc
      subst hc
      have hacc' : ∀ d, (if c.id < r.id then some r else some c) = some d → d.id ≤ b.id :=
        fun d hd => hacc d hd
      by_cases hlt : c.id < r.id
      · exact le_trans (le_of_lt hlt) (hacc' _ (if_pos hlt))
      · exact hacc' _ (if_neg hlt)

theorem pickLatest_acc_isSome (l : List SessionRow) (c : SessionRow) :
    ∃ b, pickLatest (some c) l = some b := by
  induction l generalizing c with
  | nil => exact ⟨c, rfl⟩
  | cons r rs ih =>
    show ∃ b, pickLatest (if c.id < r.id then some r else some c) rs = some b
    by_cases hlt : c.id < r.id
    · rw [if_pos hlt]; exact ih r
    · rw [if_neg hlt]; exact ih c

theorem pickLatest_map (g : SessionRow → SessionRow) (hid : ∀ r, (g r).id = r.id)
    (l : List SessionRow) (acc : Option SessionRow) :
    pickLatest (acc.map g) (l.map g) = (pickLatest acc l).map g := by
  induction l generalizing acc with
  | nil => rfl
  | cons r rs ih =>
    rw [List.map_cons]
    show pickLatest _ (rs.map g) = _
    have hstep : (match acc.map g with
        | none => some (g r)
        | some b => if b.id < (g r).id then some (g r) else some b)
        = (match acc with
          | none => some r
          | some b => if b.id < r.id then some r else some b).map g := by
      cases acc with
      | none => rfl
      | some c =>
        show (if (g c).id < (g r).id then some (g r) else some (g c))
            = (if c.id < r.id then some r else some c).map g
        rw [hid, hid]
        by_cases hlt : c.id < r.id
        · rw [if_pos hlt, if_pos hlt]; rfl
        · rw [if_neg hlt, if_neg hlt]; rfl
    rw [hstep, ih]
    rfl

theorem filter_map_comm (g : SessionRow → SessionRow) (p : SessionRow → Bool)
    (hp : ∀ r, p (g r) = p r) (l : List SessionRow) :
    (l.map g).filter p = (l.filter p).map g := by
  induction l with
  | nil => rfl
  | cons r rs ih =>
    rw [List.map_cons, List.filter_cons, List.filter_cons, hp]
    by_cases h : p r
    · rw [if_pos h, if_pos h, List.map_cons, ih]
    · rw [if_neg h, if_neg h, ih]

theorem selectLatestSession_user_id {store : Store} {uid : Nat} {s : SessionRow}
    (h : selectLatestSession store uid = some s) :
    s ∈ store.sessions ∧ s.user_id = uid := by
  rcases pickLatest_eq_some h with hmem | hnone
  · have := List.mem_filter.mp hmem
    exact ⟨this.1, by simpa using this.2⟩
  · cases hnone

theorem selectLatestSession_isSome {store : Store} {uid : Nat} {r : SessionRow}
    (hr : r ∈ store.sessions) (hu : r.user_id = uid) :
    ∃ s, selectLatestSession store uid = some s := by
  have hmem : r ∈ store.sessions.filter (fun r => r.user_id == uid) :=
    List.mem_filter.mpr ⟨hr, by simp [hu]⟩
  unfold selectLatestSession
  cases hf : store.sessions.filter (fun r => r.user_id == uid) with
  | nil => rw [hf] at hmem; cases hmem
  | cons x xs =>
    show ∃ s, pickLatest (some x) xs = some s
    exact pickLatest_acc_isSome xs x

theorem selectLatestSession_max {store : Store} {uid : Nat} {s : SessionRow}
    (h : selectLatestSession store uid = some s) :
    ∀ r ∈ store.sessions, r.user_id = uid → r.id ≤ s.id := by
  intro r hr hu
  have hmem : r ∈ store.sessions.filter (fun r => r.user_id == uid) :=
    List.mem_filter.mpr ⟨hr, by simp [hu]⟩
  exact (pickLatest_le h).1 r hmem

theorem selectLatestSession_update {store : Store} {uid : Nat} {s : SessionRow}
    (h : selectLatestSession store uid = some s) (sid : Nat) (st : String) :
    selectLatestSession (updateSessionState store sid st) uid
      = some (if s.id = sid then { s with state := st } else s) := by
  have hid : ∀ r : SessionRow,
      ((fun r => if r.id = sid then { r with state := st } else r) r).id = r.id := by
    intro r
    by_cases hr : r.id = sid <;> simp [hr]
  have hp : ∀ r : SessionRow,
      (fun r => r.user_id == uid)
          ((fun r => if r.id = sid then { r with state := st } else r) r)
        = (fun r => r.user_id == uid) r := by
    intro r
    by_cases hr : r.id = sid <;> simp [hr]
  unfold selectLatestSession at h ⊢
  unfold updateSessionState
  show pickLatest none
      ((store.sessions.map fun r => if r.id = sid then { r with state := st } else r).filter
        fun r => r.user_id == uid) = _
  rw [filter_map_comm _ _ hp, show (none : Option SessionRow)
        = Option.map (fun r : SessionRow => if r.id = sid then { r with state := st } else r) none
        from rfl,
      pickLatest_map _ hid]
  rw [h]
  rfl

theorem selectLatestSession_fresh_insert (sess : List SessionRow) (n2 : Nat) (uid : Nat)
    (row : SessionRow)
    (hrow : row.user_id = uid) (hfresh : ∀ r ∈ sess, r.id < row.id) :
    selectLatestSession { sessions := sess ++ [row], nextSessionId := n2 } uid = some row := by
  unfold selectLatestSession
  show pickLatest none ((sess ++ [row]).filter fun r => r.user_id == uid) = some row
  rw [List.filter_append, pickLatest_append]
  have hrowp : (fun r : SessionRow => r.user_id == uid) row = true := by simp [hrow]
  have hsing : ([row].filter fun r : SessionRow => r.user_id == uid) = [row] := by
    simp [List.filter_cons, hrowp]
  rw [hsing]
  cases hacc : pickLatest none (sess.filter fun r => r.user_id == uid) with
  | none => rfl
  | some b =>
    have hb : b ∈ sess.filter fun r => r.user_id == uid := by
      rcases pickLatest_eq_some hacc with hmem | hnone
      · exact hmem
      · cases hnone
    have hblt : b.id < row.id := hfresh b (List.mem_filter.mp hb).1
    show pickLatest (if b.id < row.id then some row else some b) [] = some row
    rw [if_pos hblt]
    rfl

theorem wait_on_run_result {t : Nat → String} :
    ∀ {fuel k : Nat} {s : String}, wait_on_run fuel t k = some s →
      ∃ j, j < fuel ∧ s = t (k + j) ∧ busy (t (k + j)) = false ∧
        ∀ i < j, busy (t (k + i)) = true := by
  intro fuel
  induction fuel with
  | zero => intro k s h; cases h
  | succ n ih =>
    intro k s h
    unfold wait_on_run at h
    by_cases hb : busy (t k)
    · rw [if_pos hb] at h
      obtain ⟨j, hj, hs, hnb, hall⟩ := ih h
      refine ⟨j + 1, by omega, by rwa [show k + (j + 1) = k + 1 + j by omega], ?_, ?_⟩
      · rwa [show k + (j + 1) = k + 1 + j by omega]
      · intro i hi
        cases i with
        | zero => simpa using hb
        | succ i' =>
          have := hall i' (by omega)
          rwa [show k + (i' + 1) = k + 1 + i' by omega]
    · rw [if_neg hb] at h
      cases h
      exact ⟨0, by omega, by rw [Nat.add_zero], by simpa using hb, fun i hi => absurd hi (by omega)⟩

theorem wait_on_run_terminates {t : Nat → String} :
    ∀ (n k : Nat), busy (t (k + n)) = false → ∃ s, wait_on_run (n + 1) t k = some s := by
  intro n
  induction n with
  | zero =>
    intro k h
    rw [Nat.add_zero] at h
    exact ⟨t k, by unfold wait_on_run; rw [if_neg (by simp [h])]⟩
  | succ m ih =>
    intro k h
    by_cases hb : busy (t k)
    · obtain ⟨s, hs⟩ := ih (k + 1) (by rwa [show k + 1 + m = k + (m + 1) by omega])
      exact ⟨s, by unfold wait_on_run; rw [if_pos hb]; exact hs⟩
    · exact ⟨t k, by unfold wait_on_run; rw [if_neg hb]⟩

theorem goc_of_select_ongoing (store : Store) (a : Assistant) (uid : Nat) (s : SessionRow)
    (hsel : selectLatestSession store uid = some s) (hst : s.state = "ONGOING") :
    get_or_create_session store a uid
      = { store := store, assistant := a, thread_id := s.thread_id, session_id := s.id } := by
  unfold get_or_create_session
  rw [hsel]
  dsimp only
  rw [if_neg (by simp [hst])]

theorem goc_leaves_ongoing (store : Store) (a : Assistant) (uid : Nat)
    (hfresh : ∀ r ∈ store.sessions, r.id < store.nextSessionId) :
    selectLatestSession (get_or_create_session store a uid).store uid
      = some { id := (get_or_create_session store a uid).session_id, user_id := uid,
               thread_id := (get_or_create_session store a uid).thread_id,
               state := "ONGOING" } := by
  cases hsel : selectLatestSession store uid with
  | some s =>
    obtain ⟨hmem, huid⟩ := selectLatestSession_user_id hsel
    unfold get_or_create_session
    rw [hsel]
    dsimp only
    by_cases hst : s.state = "ONGOING"
    · rw [if_neg (by simp [hst])]
      show selectLatestSession store uid = _
      rw [hsel]
      obtain ⟨si, su, stid, sst⟩ := s
      simp only at huid hst
      rw [huid, hst]
    · rw [if_pos hst]
      show selectLatestSession (updateSessionState store s.id "ONGOING") uid = _
      rw [selectLatestSession_update hsel s.id "ONGOING", if_pos rfl]
      obtain ⟨si, su, stid, sst⟩ := s
      simp only at huid
      rw [huid]
  | none =>
    unfold get_or_create_session
    rw [hsel]
    dsimp only
    exact selectLatestSession_fresh_insert store.sessions _ uid _ rfl hfresh

theorem extract_response_eq (l : List Msg) :
    extract_response l
      = (match mostRecentAssistantText l.reverse with
         | some s => s
         | none => noResponseMsg) := by
  have h := reverse_find_eq_getLast_filter (fun m : Msg => m.role == "assistant") l.reverse
  rw [List.reverse_reverse] at h
  unfold extract_response mostRecentAssistantText
  rw [h]
  cases (l.reverse.filter fun m : Msg => m.role == "assistant").getLast? with
  | none => rfl
  | some m => rfl

/-- Claim C9: `wait_on_run` re-checks the run status while it is `queued`
or `in_progress` and returns the first status outside those two states;
it has no local timeout, so (with `t` the status trace the poll observes)
the loop produces a result for some fuel if and only if the trace
eventually leaves the queued/in-progress states. -/
theorem c9_wait_on_run_poll (t : Nat → String) :
    (∀ fuel s, wait_on_run fuel t 0 = some s →
        s ≠ "queued" ∧ s ≠ "in_progress" ∧
        ∃ j, s = t j ∧ busy (t j) = false ∧ ∀ i < j, busy (t i) = true) ∧
    ((∃ n, busy (t n) = false) ↔ ∃ fuel s, wait_on_run fuel t 0 = some s) := by
  constructor
  · intro fuel s h
    obtain ⟨j, _, hs, hnb, hall⟩ := wait_on_run_result h
    rw [Nat.zero_add] at hs hnb
    have hbs : busy s = false := by rw [hs]; exact hnb
    have hne : s ≠ "queued" ∧ s ≠ "in_progress" := by
      constructor <;> intro hq <;> rw [hq] at hbs <;> simp [busy] at hbs
    refine ⟨hne.1, hne.2, j, hs, hnb, fun i hi => ?_⟩
    have := hall i hi
    rwa [Nat.zero_add] at this
  · constructor
    · rintro ⟨n, hn⟩
      obtain ⟨s, hs⟩ := wait_on_run_terminates n 0 (by rwa [Nat.zero_add])
      exact ⟨n + 1, s, hs⟩
    · rintro ⟨fuel, s, hs⟩
      obtain ⟨j, _, _, hnb, _⟩ := wait_on_run_result hs
      rw [Nat.zero_add] at hnb
      exact ⟨j, hnb⟩

/-- Witness for C9 at the constant trace that is completed from the
start: the loop yields a result. -/
theorem c9_witness :
    ∃ fuel s, wait_on_run fuel (fun _ => "completed") 0 = some s :=
  (c9_wait_on_run_poll (fun _ => "completed")).2.mp ⟨0, rfl⟩

/-- Claim C1 (counterexample): on a thread with an active run,
`handle_message` neither waits on the existing run and returns a reply nor
reports a transient-error message — its outcome is the propagating
`runs.create` exception (there is no ok outcome at all), contradicting the
claim's required behaviour on the active-run condition. -/
theorem c1_counterexample :
    (handle_message 5 (some { msgs := [], runActive := true }) "hi"
        (fun _ => "completed") []).result = some (Except.error activeRunErr) ∧
    ∀ r : String,
      (handle_message 5 (some { msgs := [], runActive := true }) "hi"
        (fun _ => "completed") []).result ≠ some (Except.ok r) := by
  refine ⟨rfl, fun r h => ?_⟩
  simp [handle_message] at h

/-- Claim C1 as amended: when starting a run fails with the active-run
condition, `handle_message` posts the user message and then the exception
propagates uncaught out of the turn — no run is listed or waited on, no
reply and no transient-error message is sent, and no second run is
started and no duplicate user message is posted. -/
theorem c1_active_run_propagates (fuel : Nat) (t : RThread) (userText : String)
    (trace : Nat → String) (runOutput : List Msg) (hactive : t.runActive = true) :
    handle_message fuel (some t) userText trace runOutput
      = { result := some (Except.error activeRunErr),
          finalMsgs := { role := "user", text := userText } :: t.msgs,
          runsStarted := 0, userMsgsPosted := 1 } := by
  simp [handle_message, hactive]

/-- Witness for the amended C1 at a concrete thread with an active run. -/
theorem c1_witness :
    handle_message 3 (some { msgs := [{ role := "user", text := "earlier" }], runActive := true })
        "again" (fun _ => "queued") []
      = { result := some (Except.error activeRunErr),
          finalMsgs := [{ role := "user", text := "again" },
                        { role := "user", text := "earlier" }],
          runsStarted := 0, userMsgsPosted := 1 } :=
  c1_active_run_propagates 3 { msgs := [{ role := "user", text := "earlier" }], runActive := true }
    "again" (fun _ => "queued") [] rfl

/-- Claim C5 (counterexample): Python parses the input "nan" to the float
NaN, which is not a real number in (0, 500], so under the claim's
validator the weight state must reject it and stay in GET_WEIGHT; the
code's comparisons `weight <= 0` and `weight > 500` are both false on NaN,
so the machine instead stores NaN and advances to GET_HEIGHT. -/
theorem c5_counterexample :
    (¬ ∃ q : ℚ, (PyFloat.nan : PyFloat) = PyFloat.fin q) ∧
    get_weight (some PyFloat.nan) {}
      = (ConvState.GET_HEIGHT, { weight := some PyFloat.nan }, [heightPrompt]) := by
  refine ⟨fun hq => ?_, rfl⟩
  obtain ⟨q, hq⟩ := hq
  cases hq

/-- Claim C5 as amended: for every non-terminal intake state and every
input failing that state's code validator — age accepted iff it parses as
an integer with `¬(age ≤ 0 ∨ age > 120)`; weight (resp. height) iff it
parses as a float whose Python comparisons satisfy
`¬(w ≤ 0 ∨ w > 500)` (resp. 300), which matches the claimed real ranges
for finite parses but additionally accepts NaN — the machine stays in the
same state, stores nothing, and re-emits the state's error prompt (for
age: "Please enter a valid age between 1 and 120."); such input is never
treated as a fatal error. -/
theorem c5_invalid_input_rejected :
    (∀ (p : Option Int) (ud : UserData),
        (∀ a : Int, p = some a → a ≤ 0 ∨ a > 120) →
        get_age p ud = (ConvState.GET_AGE, ud, [agePromptErr])) ∧
    (∀ (p : Option PyFloat) (ud : UserData),
        (∀ w : PyFloat, p = some w → (w.leQ 0 || w.gtQ 500) = true) →
        get_weight p ud = (ConvState.GET_WEIGHT, ud, [weightPromptErr])) ∧
    (∀ (p : Option PyFloat) (ud : UserData) (env : FinalizeEnv),
        (∀ h : PyFloat, p = some h → (h.leQ 0 || h.gtQ 300) = true) →
        get_height p ud env = (ConvState.GET_HEIGHT, ud, [heightPromptErr])) := by
  refine ⟨?_, ?_, ?_⟩
  · intro p ud hp
    cases p with
    | none => rfl
    | some a =>
      unfold get_age
      dsimp only
      rw [if_pos (hp a rfl)]
  · intro p ud hp
    cases p with
    | none => rfl
    | some w =>
      unfold get_weight
      dsimp only
      rw [if_pos (by simp [hp w rfl])]
  · intro p ud env hp
    cases p with
    | none => rfl
    | some h =>
      unfold get_height
      dsimp only
      rw [if_pos (by simp [hp h rfl])]

/-- Witness for the amended C5: the out-of-range age 150 and an
unparsable weight are rejected in place. -/
theorem c5_witness :
    get_age (some 150) {} = (ConvState.GET_AGE, {}, [agePromptErr]) ∧
    get_weight none {} = (ConvState.GET_WEIGHT, {}, [weightPromptErr]) :=
  ⟨c5_invalid_input_rejected.1 (some 150) {}
      (fun a ha => by cases ha; right; decide),
   c5_invalid_input_rejected.2.1 none {} (fun w hw => by cases hw)⟩

/-- Claim C7: any exception at any step of finalize-and-handoff (profile
upsert, session reconciliation, either send, message post, run start,
run wait, reply fetch, reply delivery) aborts the handoff: the handler
returns the ended state (`ConversationHandler.END`) instead of retrying,
and the user receives exactly one failure message, the fixed generic
string containing no internal error detail (possibly after the
acknowledgement that was already sent). -/
theorem c7_handoff_failure (env : FinalizeEnv) (ud : UserData)
    (hfail : env.allOk = false) :
    (finalize_profile env ud).1 = ConvState.END ∧
    ((finalize_profile env ud).2.2 = [genericFailure] ∨
      (finalize_profile env ud).2.2 = [thanksMsg, genericFailure]) ∧
    (finalize_profile env ud).2.2.count genericFailure = 1 := by
  obtain ⟨u, g, ts, po, sr, w, lm, se⟩ := env
  have key : (finalize_profile ⟨u, g, ts, po, sr, w, lm, se⟩ ud).1 = ConvState.END ∧
      ((finalize_profile ⟨u, g, ts, po, sr, w, lm, se⟩ ud).2.2 = [genericFailure] ∨
        (finalize_profile ⟨u, g, ts, po, sr, w, lm, se⟩ ud).2.2 = [thanksMsg, genericFailure]) := by
    cases u with
    | error e => exact ⟨rfl, Or.inl rfl⟩
    | ok uv =>
      cases g with
      | error e => exact ⟨rfl, Or.inl rfl⟩
      | ok gv =>
        cases ts with
        | error e => exact ⟨rfl, Or.inl rfl⟩
        | ok tv =>
          cases po with
          | error e => exact ⟨rfl, Or.inr rfl⟩
          | ok pv =>
            cases sr with
            | error e => exact ⟨rfl, Or.inr rfl⟩
            | ok rv =>
              cases w with
              | error e => exact ⟨rfl, Or.inr rfl⟩
              | ok wv =>
                cases lm with
                | error e => exact ⟨rfl, Or.inr rfl⟩
                | ok lv =>
                  cases se with
                  | error e => exact ⟨rfl, Or.inr rfl⟩
                  | ok sv => simp [FinalizeEnv.allOk, isOkE] at hfail
  refine ⟨key.1, key.2, ?_⟩
  rcases key.2 with h | h <;> rw [h] <;> decide

/-- Witness for C7: the environment whose profile upsert raises ends the
conversation with the single generic failure message. -/
theorem c7_witness :
    (finalize_profile failEnv {}).1 = ConvState.END ∧
    ((finalize_profile failEnv {}).2.2 = [genericFailure] ∨
      (finalize_profile failEnv {}).2.2 = [thanksMsg, genericFailure]) ∧
    (finalize_profile failEnv {}).2.2.count genericFailure = 1 :=
  c7_handoff_failure failEnv {} rfl

/-- Claim C8: after a completed run the reply returned to the user is the
text of the most recent assistant-authored message among the thread's
messages (the thread's chronological message list is the reverse of the
newest-first list the backend returns), and the fixed fallback string is
substituted when no assistant-authored message exists, instead of failing
the turn. -/
theorem c8_reply_selection (t : RThread) (userText : String) (trace : Nat → String)
    (runOutput : List Msg) (fuel : Nat) (st : String)
    (hactive : t.runActive = false)
    (hwait : wait_on_run fuel trace 0 = some st) :
    (handle_message fuel (some t) userText trace runOutput).result
      = some (Except.ok
          (match mostRecentAssistantText
              ((runOutput ++ { role := "user", text := userText } :: t.msgs).reverse) with
           | some s => s
           | none => noResponseMsg)) := by
  unfold handle_message
  rw [hwait]
  simp only [hactive, Bool.false_eq_true, if_false]
  rw [extract_response_eq]

/-- Witness for C8: a run that prepends one assistant message yields that
message's text as the reply. -/
theorem c8_witness :
    (handle_message 1 (some { msgs := [], runActive := false }) "hi"
        (fun _ => "completed") [{ role := "assistant", text := "Reply" }]).result
      = some (Except.ok "Reply") := by
  have h := c8_reply_selection { msgs := [], runActive := false } "hi"
    (fun _ => "completed") [{ role := "assistant", text := "Reply" }] 1 "completed" rfl rfl
  exact h.trans rfl

/-- Claim C2 (counterexample): user 7's stored session points at thread
42; suppose that thread is unusable — the backend no longer resolves the
id, so the exchange's first call raises (`th = none`).  The claim says
exactly one replacement thread is then created, the Session row's thread
id is updated in place and the exchange is retried once; the code instead
leaves the backend counter and the row untouched (the recovery branch of
bot.py lines 140-151 guards only a log call and is unreachable), returns
the stored id, and the exchange fails with a propagating error and zero
runs, with no retry. -/
theorem c2_counterexample :
    get_or_create_session
        { sessions := [{ id := 1, user_id := 7, thread_id := 42, state := "ONGOING" }],
          nextSessionId := 2 } { nextThreadId := 100 } 7
      = { store := { sessions := [{ id := 1, user_id := 7, thread_id := 42, state := "ONGOING" }],
                     nextSessionId := 2 },
          assistant := { nextThreadId := 100 }, thread_id := 42, session_id := 1 } ∧
    (handle_message 5 none "hello" (fun _ => "completed") []).result
      = some (Except.error "No thread found") ∧
    (handle_message 5 none "hello" (fun _ => "completed") []).runsStarted = 0 := by
  refine ⟨?_, rfl, rfl⟩
  decide

/-- Claim C2 as amended: the unusable-thread recovery of
`get_or_create_session` is dead code (its try block only logs), so for
every user with a stored session the call returns the stored latest row's
thread id regardless of that thread's usability, creates no replacement
thread (the backend state is unchanged), and changes no row's thread id;
a message exchange against an unusable thread then fails with a
propagating error, starting no run, and is not retried. -/
theorem c2_no_replacement_on_unusable (store : Store) (a : Assistant) (uid : Nat)
    (s : SessionRow) (hsel : selectLatestSession store uid = some s)
    (fuel : Nat) (userText : String) (trace : Nat → String) (runOutput : List Msg) :
    (get_or_create_session store a uid).thread_id = s.thread_id ∧
    (get_or_create_session store a uid).assistant = a ∧
    (get_or_create_session store a uid).store.sessions.map (fun r => (r.id, r.thread_id))
      = store.sessions.map (fun r => (r.id, r.thread_id)) ∧
    (handle_message fuel none userText trace runOutput).result
      = some (Except.error "No thread found") ∧
    (handle_message fuel none userText trace runOutput).runsStarted = 0 := by
  by_cases hst : s.state = "ONGOING"
  · rw [goc_of_select_ongoing store a uid s hsel hst]
    exact ⟨rfl, rfl, rfl, rfl, rfl⟩
  · have hgoc : get_or_create_session store a uid
        = { store := updateSessionState store s.id "ONGOING", assistant := a,
            thread_id := s.thread_id, session_id := s.id } := by
      unfold get_or_create_session
      rw [hsel]
      dsimp only
      rw [if_pos hst]
    rw [hgoc]
    refine ⟨rfl, rfl, ?_, rfl, rfl⟩
    show (store.sessions.map fun r =>
        if r.id = s.id then { r with state := "ONGOING" } else r).map
          (fun r => (r.id, r.thread_id))
      = store.sessions.map (fun r => (r.id, r.thread_id))
    rw [List.map_map]
    apply List.map_congr_left
    intro r _
    by_cases hid : r.id = s.id <;> simp [Function.comp, hid]

/-- Witness for the amended C2 at the store of the counterexample. -/
theorem c2_witness :
    (get_or_create_session
        { sessions := [{ id := 1, user_id := 7, thread_id := 42, state := "STARTED" }],
          nextSessionId := 2 } { nextThreadId := 100 } 7).assistant
      = { nextThreadId := 100 } :=
  (c2_no_replacement_on_unusable
      { sessions := [{ id := 1, user_id := 7, thread_id := 42, state := "STARTED" }],
        nextSessionId := 2 } { nextThreadId := 100 } 7
      { id := 1, user_id := 7, thread_id := 42, state := "STARTED" } rfl
      5 "hello" (fun _ => "completed") []).2.1

/-- Claim C3: with a fresh serial key (every stored row id below the next
key, as the database guarantees), calling `get_or_create_session` twice
in succession with no intervening failure returns an identical result:
the same thread id, an unchanged sessions table (no new row) and an
unchanged backend (no new remote thread). -/
theorem c3_getOrCreate_idempotent (store : Store) (a : Assistant) (uid : Nat)
    (hfresh : ∀ r ∈ store.sessions, r.id < store.nextSessionId) :
    get_or_create_session (get_or_create_session store a uid).store
        (get_or_create_session store a uid).assistant uid
      = get_or_create_session store a uid := by
  have hsel := goc_leaves_ongoing store a uid hfresh
  rw [goc_of_select_ongoing _ _ _ _ hsel rfl]

/-- Witness for C3 on an initially empty sessions table. -/
theorem c3_witness :
    get_or_create_session
        (get_or_create_session { sessions := [], nextSessionId := 1 } { nextThreadId := 5 } 7).store
        (get_or_create_session { sessions := [], nextSessionId := 1 } { nextThreadId := 5 } 7).assistant
        7
      = get_or_create_session { sessions := [], nextSessionId := 1 } { nextThreadId := 5 } 7 :=
  c3_getOrCreate_idempotent { sessions := [], nextSessionId := 1 } { nextThreadId := 5 } 7
    (by intro r hr; cases hr)

/-- Claim C4: `get_or_create_session` selects the row with the greatest
id among the user's rows when any exist (the most recently created under
the serial key; older rows are never touched), promotes its state to
ONGOING when it differs and never demotes an ONGOING row (the table is
unchanged in that case), and when no row exists requests one new remote
thread and inserts exactly the row {user_id, thread_id, state: ONGOING}. -/
theorem c4_select_promote_insert (store : Store) (a : Assistant) (uid : Nat) :
    (∀ s, selectLatestSession store uid = some s →
      s ∈ store.sessions ∧ s.user_id = uid ∧
      (∀ r ∈ store.sessions, r.user_id = uid → r.id ≤ s.id) ∧
      (get_or_create_session store a uid).thread_id = s.thread_id ∧
      (get_or_create_session store a uid).assistant = a ∧
      (s.state ≠ "ONGOING" →
        (get_or_create_session store a uid).store.sessions
          = store.sessions.map
              (fun r => if r.id = s.id then { r with state := "ONGOING" } else r)) ∧
      (s.state = "ONGOING" → (get_or_create_session store a uid).store = store) ∧
      (∀ r ∈ store.sessions, r.id ≠ s.id →
        r ∈ (get_or_create_session store a uid).store.sessions)) ∧
    (selectLatestSession store uid = none →
      (∀ r ∈ store.sessions, r.user_id ≠ uid) ∧
      get_or_create_session store a uid
        = { store :=
              { sessions :=
                  store.sessions ++
                    [{ id := store.nextSessionId, user_id := uid,
                       thread_id := a.nextThreadId, state := "ONGOING" }],
                nextSessionId := store.nextSessionId + 1 },
            assistant := { nextThreadId := a.nextThreadId + 1 },
            thread_id := a.nextThreadId, session_id := store.nextSessionId }) := by
  constructor
  · intro s hsel
    obtain ⟨hmem, huid⟩ := selectLatestSession_user_id hsel
    refine ⟨hmem, huid, selectLatestSession_max hsel, ?_⟩
    by_cases hst : s.state = "ONGOING"
    · rw [goc_of_select_ongoing store a uid s hsel hst]
      exact ⟨rfl, rfl, fun h => absurd hst h, fun _ => rfl, fun r hr _ => hr⟩
    · have hgoc : get_or_create_session store a uid
          = { store := updateSessionState store s.id "ONGOING", assistant := a,
              thread_id := s.thread_id, session_id := s.id } := by
        unfold get_or_create_session
        rw [hsel]
        dsimp only
        rw [if_pos hst]
      rw [hgoc]
      refine ⟨rfl, rfl, fun _ => rfl, fun h => absurd h hst, ?_⟩
      intro r hr hid
      show r ∈ store.sessions.map
        (fun r => if r.id = s.id then { r with state := "ONGOING" } else r)
      have : (fun r : SessionRow =>
          if r.id = s.id then { r with state := "ONGOING" } else r) r = r := by
        simp [hid]
      rw [← this]
      exact List.mem_map_of_mem _ hr
  · intro hnone
    constructor
    · intro r hr hu
      obtain ⟨s, hs⟩ := selectLatestSession_isSome hr hu
      rw [hnone] at hs
      cases hs
    · unfold get_or_create_session
      rw [hnone]
      rfl

/-- Witness for C4 at a one-row table with a non-ONGOING state: the row
is selected and promoted. -/
theorem c4_witness :
    (get_or_create_session
        { sessions := [{ id := 1, user_id := 7, thread_id := 42, state := "STARTED" }],
          nextSessionId := 2 } { nextThreadId := 100 } 7).thread_id = 42 :=
  ((c4_select_promote_insert
      { sessions := [{ id := 1, user_id := 7, thread_id := 42, state := "STARTED" }],
        nextSessionId := 2 } { nextThreadId := 100 } 7).1
    { id := 1, user_id := 7, thread_id := 42, state := "STARTED" } rfl).2.2.2.1

/-- Claim C6: for a new user (no `users` row) and four valid answers —
the contact share, an age in [1,120], a weight in (0,500] and a height in
(0,300] — the machine advances exactly one state per answer through
GET_AGE, GET_WEIGHT, GET_HEIGHT and reaches ONGOING after exactly the
four answers (the last one triggering the finalize-and-handoff, here with
all collaborator calls succeeding), with each parsed value stored in the
draft profile. -/
theorem c6_intake_progression (tgid : Nat) (phone fn ln : String) (users : List UserRow)
    (store : Store) (a : Assistant) (ud : UserData) (ageV : Int) (wV hV : ℚ)
    (env : FinalizeEnv)
    (hnew : users.find? (fun u => u.telegram_id == tgid) = none)
    (ha1 : 1 ≤ ageV) (ha2 : ageV ≤ 120)
    (hw1 : 0 < wV) (hw2 : wV ≤ 500)
    (hh1 : 0 < hV) (hh2 : hV ≤ 300)
    (henv : env.allOk = true) :
    (intakeStates tgid phone fn ln users store a ud (some ageV)
        (some (PyFloat.fin wV)) (some (PyFloat.fin hV)) env).1 = ConvState.GET_AGE ∧
    (intakeStates tgid phone fn ln users store a ud (some ageV)
        (some (PyFloat.fin wV)) (some (PyFloat.fin hV)) env).2.1 = ConvState.GET_WEIGHT ∧
    (intakeStates tgid phone fn ln users store a ud (some ageV)
        (some (PyFloat.fin wV)) (some (PyFloat.fin hV)) env).2.2.1 = ConvState.GET_HEIGHT ∧
    (intakeStates tgid phone fn ln users store a ud (some ageV)
        (some (PyFloat.fin wV)) (some (PyFloat.fin hV)) env).2.2.2.1 = ConvState.ONGOING ∧
    (intakeStates tgid phone fn ln users store a ud (some ageV)
        (some (PyFloat.fin wV)) (some (PyFloat.fin hV)) env).2.2.2.2.age = some ageV ∧
    (intakeStates tgid phone fn ln users store a ud (some ageV)
        (some (PyFloat.fin wV)) (some (PyFloat.fin hV)) env).2.2.2.2.weight
      = some (PyFloat.fin wV) ∧
    (intakeStates tgid phone fn ln users store a ud (some ageV)
        (some (PyFloat.fin wV)) (some (PyFloat.fin hV)) env).2.2.2.2.height
      = some (PyFloat.fin hV) := by
  have hac : ¬(ageV ≤ 0 ∨ ageV > 120) := by omega
  have hwc : ((PyFloat.fin wV).leQ 0 || (PyFloat.fin wV).gtQ 500) = false := by
    show (decide (wV ≤ 0) || decide ((500 : ℚ) < wV)) = false
    rw [decide_eq_false (not_le.mpr hw1), decide_eq_false (not_lt.mpr hw2)]
    rfl
  have hhc : ((PyFloat.fin hV).leQ 0 || (PyFloat.fin hV).gtQ 300) = false := by
    show (decide (hV ≤ 0) || decide ((300 : ℚ) < hV)) = false
    rw [decide_eq_false (not_le.mpr hh1), decide_eq_false (not_lt.mpr hh2)]
    rfl
  obtain ⟨u, g, ts, po, sr, w, lm, se⟩ := env
  cases u with
  | error e => simp [FinalizeEnv.allOk, isOkE] at henv
  | ok uv =>
    cases g with
    | error e => simp [FinalizeEnv.allOk, isOkE] at henv
    | ok gv =>
      cases ts with
      | error e => simp [FinalizeEnv.allOk, isOkE] at henv
      | ok tv =>
        cases po with
        | error e => simp [FinalizeEnv.allOk, isOkE] at henv
        | ok pv =>
          cases sr with
          | error e => simp [FinalizeEnv.allOk, isOkE] at henv
          | ok rv =>
            cases w with
            | error e => simp [FinalizeEnv.allOk, isOkE] at henv
            | ok wv =>
              cases lm with
              | error e => simp [FinalizeEnv.allOk, isOkE] at henv
              | ok lv =>
                cases se with
                | error e => simp [FinalizeEnv.allOk, isOkE] at henv
                | ok sv =>
                  simp [intakeStates, handle_contact, get_age, get_weight, get_height,
                    finalize_profile, hnew, hwc, hhc, if_neg hac]

/-- Witness for C6 at the spec's scenario: age 30, weight 70.5,
height 175.5; the composed run ends in ONGOING. -/
theorem c6_witness :
    (intakeStates 1 "p" "A" "B" [] { sessions := [], nextSessionId := 1 }
        { nextThreadId := 0 } {} (some 30) (some (PyFloat.fin 70.5))
        (some (PyFloat.fin 175.5)) okEnv).2.2.2.1 = ConvState.ONGOING :=
  (c6_intake_progression 1 "p" "A" "B" [] { sessions := [], nextSessionId := 1 }
      { nextThreadId := 0 } {} 30 70.5 175.5 okEnv rfl
      (by norm_num) (by norm_num) (by norm_num) (by norm_num) (by norm_num) (by norm_num)
      rfl).2.2.2.1

/-- Claim C10: when the shared contact's telegram id already has a
`users` row, the whole questionnaire is skipped: the machine goes
directly from the contact state to ONGOING with only the welcome-back
message, the stored profile row is loaded into the per-user context, the
session is reconciled via `get_or_create_session`, and the users table is
untouched (no upsert). -/
theorem c10_returning_user (tgid : Nat) (phone fn ln : String) (users : List UserRow)
    (store : Store) (a : Assistant) (ud : UserData) (u : UserRow)
    (hfound : users.find? (fun r => r.telegram_id == tgid) = some u) :
    handle_contact tgid phone fn ln users store a ud
      = (ConvState.ONGOING,
         { applyUserRow
             { ud with telegram_id := some tgid, phone := some phone,
                       name := some ((fn ++ " " ++ ln).trim) } u with
           thread_id := some (get_or_create_session store a u.id).thread_id,
           session_id := some (get_or_create_session store a u.id).session_id },
         users,
         (get_or_create_session store a u.id).store,
         (get_or_create_session store a u.id).assistant,
         [welcomeBack u.name]) := by
  unfold handle_contact
  rw [hfound]

/-- Witness for C10 at a one-row users table. -/
theorem c10_witness :
    (handle_contact 99 "555" "Sam" "Mee"
        [{ id := 3, telegram_id := 99, name := "Sam Mee", phone := "555",
           age := 30, weight := PyFloat.fin 70, height := PyFloat.fin 175 }]
        { sessions := [], nextSessionId := 1 } { nextThreadId := 0 } {}).1
      = ConvState.ONGOING := by
  rw [c10_returning_user 99 "555" "Sam" "Mee"
    [{ id := 3, telegram_id := 99, name := "Sam Mee", phone := "555",
       age := 30, weight := PyFloat.fin 70, height := PyFloat.fin 175 }]
    { sessions := [], nextSessionId := 1 } { nextThreadId := 0 } {}
    { id := 3, telegram_id := 99, name := "Sam Mee", phone := "555",
      age := 30, weight := PyFloat.fin 70, height := PyFloat.fin 175 } rfl]
